import Mathlib

/-!
Shallow embedding of the GPIO and sleep subsystems of the lpc8xx-hal
repository (src/gpio.rs, src/sleep.rs), together with theorems checking
the natural-language specification against the code.

Every GPIO operation in the source manipulates write-one-bit hardware
registers through a fixed per-pin mask `T::MASK = 1 << index`. We embed a
register access as a `RegOp` value recording which register was touched
and for which pin, an operation as the list of register accesses it
performs (in program order) paired with its return value and updated
handle, and the hardware as a state `HwState` giving the direction bit
and level bit of every pin; `applyOps` folds a trace into the state using
the write-one-to-set / write-one-to-clear / write-one-to-toggle semantics
of the DIRSET/DIRCLR/SET/CLR/NOT registers.
-/

namespace Gpio

/-- Identity of one physical pin: port index and bit index
(the source stores the mask `1 <<< index` as a `u32`). -/
structure PinId where
  port : Nat
  index : Nat
deriving DecidableEq, Repr

/-- The voltage level of a pin (src/gpio.rs `Level`). -/
inductive Level
  | high
  | low
deriving DecidableEq, Repr

/-- Boolean reading of a level: `high` is `true`. -/
def Level.toBool : Level → Bool
  | .high => true
  | .low => false

/-- Runtime direction tag of a dynamic pin (pins::DynamicPinDirection). -/
inductive DynamicPinDirection
  | input
  | output
deriving DecidableEq, Repr

/-- One access to the GPIO register block, restricted to one pin's mask:
a write of the pin's mask to SET, CLR, DIRSET, DIRCLR or NOT, or a read
of the PIN level register. -/
inductive RegOp
  | set (p : PinId)
  | clr (p : PinId)
  | dirset (p : PinId)
  | dirclr (p : PinId)
  | notw (p : PinId)
  | readPin (p : PinId)
deriving DecidableEq, Repr

/-- Hardware state: per-pin direction bit (true = output) and per-pin
level bit, as seen through the bit-addressed register block. -/
structure HwState where
  dir : PinId → Bool
  level : PinId → Bool

/-- Effect of one register access on the hardware state, following the
write-one-to-set / clear / toggle semantics of the register block. -/
def applyOp (s : HwState) : RegOp → HwState
  | .set p => { s with level := fun q => if q = p then true else s.level q }
  | .clr p => { s with level := fun q => if q = p then false else s.level q }
  | .dirset p => { s with dir := fun q => if q = p then true else s.dir q }
  | .dirclr p => { s with dir := fun q => if q = p then false else s.dir q }
  | .notw p => { s with level := fun q => if q = p then !(s.level q) else s.level q }
  | .readPin _ => s

/-- Effect of a trace of register accesses, in program order. -/
def applyOps (s : HwState) (tr : List RegOp) : HwState :=
  tr.foldl applyOp s

/-- src/gpio.rs `fn set_high<T>`: write the pin's mask to SET. -/
def set_high (p : PinId) : List RegOp :=
  [RegOp.set p]

/-- src/gpio.rs `fn set_low<T>`: write the pin's mask to CLR. -/
def set_low (p : PinId) : List RegOp :=
  [RegOp.clr p]

/-- src/gpio.rs `fn is_high<T>`: read the PIN register and test the
pin's mask bit. Returns the read value and the trace of the access. -/
def is_high (p : PinId) (s : HwState) : Bool × List RegOp :=
  (s.level p, [RegOp.readPin p])

/-- src/gpio.rs `fn set_direction_output<T>`: write the mask to DIRSET. -/
def set_direction_output (p : PinId) : List RegOp :=
  [RegOp.dirset p]

/-- src/gpio.rs `fn set_direction_input<T>`: write the mask to DIRCLR. -/
def set_direction_input (p : PinId) : List RegOp :=
  [RegOp.dirclr p]

/-- The single level write performed for a requested level: SET for
`Level::High`, CLR for `Level::Low`. -/
def levelWrite (p : PinId) : Level → RegOp
  | .high => RegOp.set p
  | .low => RegOp.clr p

/-- Runtime state of `direction::Dynamic`. -/
structure DynamicHandle where
  current_direction : DynamicPinDirection
deriving DecidableEq, Repr

/-- src/gpio.rs `impl Direction for Input`: `switch` clears the
direction bit. Returns the trace of register writes. -/
def Direction.Input.switch (p : PinId) : List RegOp :=
  set_direction_input p

/-- src/gpio.rs `impl Direction for Output`: `switch` first writes the
requested output level, then sets the direction bit. -/
def Direction.Output.switch (p : PinId) (initial : Level) : List RegOp :=
  (match initial with
    | Level.high => set_high p
    | Level.low => set_low p)
  ++ set_direction_output p

/-- src/gpio.rs `impl Direction for Dynamic`: `switch` first writes the
requested output level, then writes the direction bit per the requested
direction, and records the direction in the runtime tag. -/
def Direction.Dynamic.switch (p : PinId)
    (initial : Level × DynamicPinDirection) : DynamicHandle × List RegOp :=
  let (level, current_direction) := initial
  let lw := match level with
    | Level.high => set_high p
    | Level.low => set_low p
  let dw := match current_direction with
    | DynamicPinDirection.input => set_direction_input p
    | DynamicPinDirection.output => set_direction_output p
  ({ current_direction := current_direction }, lw ++ dw)

/-- `GpioPin<T, direction::Output>::set_high` (inherent). -/
def GpioPinOutput.set_high (p : PinId) : List RegOp :=
  Gpio.set_high p

/-- `GpioPin<T, direction::Output>::set_low` (inherent). -/
def GpioPinOutput.set_low (p : PinId) : List RegOp :=
  Gpio.set_low p

/-- `GpioPin<T, direction::Output>::is_set_high` (inherent): reads the
level register through `is_high`. -/
def GpioPinOutput.is_set_high (p : PinId) (s : HwState) : Bool × List RegOp :=
  Gpio.is_high p s

/-- `GpioPin<T, direction::Output>::toggle` (inherent): one write of the
pin's mask to the NOT register. -/
def GpioPinOutput.toggle (p : PinId) : List RegOp :=
  [RegOp.notw p]

/-- `GpioPin<T, direction::Dynamic>::set_high` (inherent, executed
regardless of the current direction). -/
def GpioPinDynamic.set_high (p : PinId) : List RegOp :=
  Gpio.set_high p

/-- `GpioPin<T, direction::Dynamic>::set_low` (inherent, executed
regardless of the current direction). -/
def GpioPinDynamic.set_low (p : PinId) : List RegOp :=
  Gpio.set_low p

/-- `GpioPin<T, direction::Dynamic>::is_high` (inherent, reads the
level register regardless of the current direction). -/
def GpioPinDynamic.is_high (p : PinId) (s : HwState) : Bool × List RegOp :=
  Gpio.is_high p s

/-- `GpioPin<T, direction::Dynamic>::is_low` (inherent):
negation of `is_high`, same register access. -/
def GpioPinDynamic.is_low (p : PinId) (s : HwState) : Bool × List RegOp :=
  (!(GpioPinDynamic.is_high p s).1, (GpioPinDynamic.is_high p s).2)

/-- `GpioPin<T, direction::Dynamic>::switch_to_input`: if the runtime
direction is already Input, return without touching the hardware;
otherwise clear the direction bit and update the tag. -/
def GpioPinDynamic.switch_to_input (p : PinId) (h : DynamicHandle) :
    DynamicHandle × List RegOp :=
  if h.current_direction = DynamicPinDirection.input then
    (h, [])
  else
    ({ current_direction := DynamicPinDirection.input }, set_direction_input p)

/-- `GpioPin<T, direction::Dynamic>::switch_to_output`: first write the
requested output level (via the inherent `set_high`/`set_low`); then, if
the runtime direction is already Output, return; otherwise set the
direction bit and update the tag. -/
def GpioPinDynamic.switch_to_output (p : PinId) (h : DynamicHandle)
    (level : Level) : DynamicHandle × List RegOp :=
  let lw := match level with
    | Level.high => GpioPinDynamic.set_high p
    | Level.low => GpioPinDynamic.set_low p
  if h.current_direction = DynamicPinDirection.output then
    (h, lw)
  else
    ({ current_direction := DynamicPinDirection.output },
      lw ++ set_direction_output p)

/-- The capability-erased `DynamicGpioPin<direction::Dynamic>`: stores
the pin identity as raw port and mask (here the mask's bit index) plus
the runtime `is_output` flag of its `Dynamic` direction value. -/
structure DynGpioPin where
  pin : PinId
  is_output : Bool
deriving DecidableEq, Repr

/-- `DynamicGpioPin::switch_to_input`: if the direction flag is not
output, return; otherwise write the mask to DIRCLR and clear the flag. -/
def DynamicGpioPin.switch_to_input (dp : DynGpioPin) :
    DynGpioPin × List RegOp :=
  if dp.is_output = false then
    (dp, [])
  else
    ({ dp with is_output := false }, [RegOp.dirclr dp.pin])

/-- `DynamicGpioPin::switch_to_output`: if the direction flag is already
output, return immediately (before any register access); otherwise write
the requested level (SET or CLR), then write the mask to DIRSET and set
the flag. -/
def DynamicGpioPin.switch_to_output (dp : DynGpioPin) (level : Level) :
    DynGpioPin × List RegOp :=
  if dp.is_output then
    (dp, [])
  else
    let lw := match level with
      | Level.high => [RegOp.set dp.pin]
      | Level.low => [RegOp.clr dp.pin]
    ({ dp with is_output := true }, lw ++ [RegOp.dirset dp.pin])

/-- `direction::DynamicPinErr` — the error type of the generic trait
accessors on a dynamic pin, with its single variant. -/
inductive DynamicPinErr
  | WrongDirection
deriving DecidableEq, Repr

/-- `impl OutputPin for GpioPin<T, direction::Dynamic>`, `fn set_high`:
if the runtime direction is Output, Ok of the inherent `set_high`;
if it is Input, `Err(WrongDirection)` with no register access and the
handle unchanged. Returns (result, handle after the call, trace). -/
def OutputPinImpl.set_high (p : PinId) (h : DynamicHandle) :
    Except DynamicPinErr Unit × DynamicHandle × List RegOp :=
  match h.current_direction with
  | DynamicPinDirection.output => (Except.ok (), h, GpioPinDynamic.set_high p)
  | DynamicPinDirection.input => (Except.error DynamicPinErr.WrongDirection, h, [])

/-- `impl OutputPin for GpioPin<T, direction::Dynamic>`, `fn set_low`. -/
def OutputPinImpl.set_low (p : PinId) (h : DynamicHandle) :
    Except DynamicPinErr Unit × DynamicHandle × List RegOp :=
  match h.current_direction with
  | DynamicPinDirection.output => (Except.ok (), h, GpioPinDynamic.set_low p)
  | DynamicPinDirection.input => (Except.error DynamicPinErr.WrongDirection, h, [])

/-- `impl StatefulOutputPin for GpioPin<T, direction::Dynamic>`,
`fn is_set_high`: Ok of the inherent `is_high` when Output, else
`Err(WrongDirection)`. -/
def StatefulOutputPinImpl.is_set_high (p : PinId) (h : DynamicHandle)
    (s : HwState) : Except DynamicPinErr Bool × DynamicHandle × List RegOp :=
  match h.current_direction with
  | DynamicPinDirection.output =>
      (Except.ok (GpioPinDynamic.is_high p s).1, h, (GpioPinDynamic.is_high p s).2)
  | DynamicPinDirection.input => (Except.error DynamicPinErr.WrongDirection, h, [])

/-- `impl StatefulOutputPin for GpioPin<T, direction::Dynamic>`,
`fn is_set_low`: Ok of the inherent `is_low` when Output, else
`Err(WrongDirection)`. -/
def StatefulOutputPinImpl.is_set_low (p : PinId) (h : DynamicHandle)
    (s : HwState) : Except DynamicPinErr Bool × DynamicHandle × List RegOp :=
  match h.current_direction with
  | DynamicPinDirection.output =>
      (Except.ok (GpioPinDynamic.is_low p s).1, h, (GpioPinDynamic.is_low p s).2)
  | DynamicPinDirection.input => (Except.error DynamicPinErr.WrongDirection, h, [])

/-- `impl InputPin for GpioPin<T, direction::Dynamic>`, `fn is_high`:
`Err(WrongDirection)` when Output, Ok of the inherent `is_high` when
Input. -/
def InputPinImpl.is_high (p : PinId) (h : DynamicHandle) (s : HwState) :
    Except DynamicPinErr Bool × DynamicHandle × List RegOp :=
  match h.current_direction with
  | DynamicPinDirection.output => (Except.error DynamicPinErr.WrongDirection, h, [])
  | DynamicPinDirection.input =>
      (Except.ok (GpioPinDynamic.is_high p s).1, h, (GpioPinDynamic.is_high p s).2)

/-- `impl InputPin for GpioPin<T, direction::Dynamic>`, `fn is_low`. -/
def InputPinImpl.is_low (p : PinId) (h : DynamicHandle) (s : HwState) :
    Except DynamicPinErr Bool × DynamicHandle × List RegOp :=
  match h.current_direction with
  | DynamicPinDirection.output => (Except.error DynamicPinErr.WrongDirection, h, [])
  | DynamicPinDirection.input =>
      (Except.ok (GpioPinDynamic.is_low p s).1, h, (GpioPinDynamic.is_low p s).2)

/-- Unified view of a pin handle for stating the direction invariant:
the type tag of `GpioPin<T, Input>` / `GpioPin<T, Output>`, or the
runtime tag of `GpioPin<T, Dynamic>`. -/
inductive Handle
  | input
  | output
  | dynamic (d : DynamicPinDirection)
deriving DecidableEq, Repr

/-- The direction a handle claims the pin has: true = output. -/
def Handle.dirBit : Handle → Bool
  | .input => false
  | .output => true
  | .dynamic DynamicPinDirection.input => false
  | .dynamic DynamicPinDirection.output => true

/-- Constructor argument for `GpioPin::new` (which direction state the
pin is built in, via the corresponding `Direction::switch`). -/
inductive ConstructArg
  | input
  | output (l : Level)
  | dynamic (l : Level) (d : DynamicPinDirection)

/-- `GpioPin::new`: builds a handle in the requested direction state by
running the corresponding `Direction::switch`, which performs the
register writes needed to reach that state. -/
def construct (p : PinId) : ConstructArg → Handle × List RegOp
  | .input => (Handle.input, Direction.Input.switch p)
  | .output l => (Handle.output, Direction.Output.switch p l)
  | .dynamic l d =>
      let r := Direction.Dynamic.switch p (l, d)
      (Handle.dynamic r.1.current_direction, r.2)

/-- The operations of the claim on pin handles. Each is available only
on the handle types where the source defines it. -/
inductive Op
  | into_output (l : Level)
  | into_input
  | into_dynamic (l : Level) (d : DynamicPinDirection)
  | switch_to_input
  | switch_to_output (l : Level)
  | op_set_high
  | op_set_low
  | op_toggle

/-- Dispatch of one operation on a handle, returning `none` where the
source offers no such method (rejected at compile time in Rust), and
otherwise the new handle and the trace of register accesses, built from
the per-direction source functions above. -/
def step (p : PinId) : Handle → Op → Option (Handle × List RegOp)
  | Handle.input, .into_output l =>
      some (Handle.output, Direction.Output.switch p l)
  | Handle.input, .into_dynamic l d =>
      let r := Direction.Dynamic.switch p (l, d)
      some (Handle.dynamic r.1.current_direction, r.2)
  | Handle.output, .into_input =>
      some (Handle.input, Direction.Input.switch p)
  | Handle.output, .into_dynamic l d =>
      let r := Direction.Dynamic.switch p (l, d)
      some (Handle.dynamic r.1.current_direction, r.2)
  | Handle.output, .op_set_high => some (Handle.output, GpioPinOutput.set_high p)
  | Handle.output, .op_set_low => some (Handle.output, GpioPinOutput.set_low p)
  | Handle.output, .op_toggle => some (Handle.output, GpioPinOutput.toggle p)
  | Handle.dynamic d, .switch_to_input =>
      let r := GpioPinDynamic.switch_to_input p { current_direction := d }
      some (Handle.dynamic r.1.current_direction, r.2)
  | Handle.dynamic d, .switch_to_output l =>
      let r := GpioPinDynamic.switch_to_output p { current_direction := d } l
      some (Handle.dynamic r.1.current_direction, r.2)
  | Handle.dynamic d, .op_set_high =>
      some (Handle.dynamic d, GpioPinDynamic.set_high p)
  | Handle.dynamic d, .op_set_low =>
      some (Handle.dynamic d, GpioPinDynamic.set_low p)
  | _, _ => none

/-- An output-configuring trace has the requested level written strictly
before any direction-set write: every DIRSET access for the pin is
preceded by an earlier SET/CLR access matching the requested level. -/
def levelBeforeDirset (p : PinId) (L : Level) (tr : List RegOp) : Prop :=
  ∀ j : Nat, tr[j]? = some (RegOp.dirset p) →
    ∃ i : Nat, i < j ∧ tr[i]? = some (levelWrite p L)

/-- Number of direction-set register writes in a trace. -/
def countDirset : List RegOp → Nat
  | [] => 0
  | RegOp.dirset _ :: tr => countDirset tr + 1
  | _ :: tr => countDirset tr

/-- A concrete hardware state (every direction bit and level bit clear),
used to instantiate theorems at concrete inputs. -/
def hw0 : HwState :=
  { dir := fun _ => false, level := fun _ => false }

end Gpio

namespace Sleep

/-!
Embedding of src/sleep.rs. A `sleep` call is embedded as the list of
observable operations it performs, in program order: calls into the wake
timer (`selectClock`, `start`, `wait`), NVIC interrupt mask changes,
critical-section entry/exit (the `interrupt::free` closure), the halt
instruction (`enterSleepMode`) and the busy-loop `nop`. The wake timer
itself is outside src/ and is abstracted by a fuel parameter: the number
of `wait` polls that return `WouldBlock` before the timer reports fired
(the loop's exit is driven by the timer hardware, not by this code).
-/

/-- One observable operation of a sleep strategy. -/
inductive SleepEvent
  | selectClock
  | start (ticks : Nat)
  | wait
  | nop
  | enterSleepMode
  | nvicUnmask
  | nvicMask
  | criticalEnter
  | criticalExit
deriving DecidableEq, Repr

/-- The busy-wait loop of `Busy::sleep`: each iteration polls the timer
and, while it would block, issues a `nop`; `fuel` is the number of polls
that return `WouldBlock`. -/
def busyWaitLoop : Nat → List SleepEvent
  | 0 => [SleepEvent.wait]
  | n + 1 => SleepEvent.wait :: SleepEvent.nop :: busyWaitLoop n

/-- `impl Sleep for Busy`, `fn sleep(ticks)`: return immediately when
`ticks == 0`; otherwise start the timer and busy-poll until it fires. -/
def Busy.sleep (ticks : Nat) (fuel : Nat) : List SleepEvent :=
  if ticks = 0 then []
  else SleepEvent.start ticks :: busyWaitLoop fuel

/-- The wait loop of `Regular::sleep`: each iteration polls the timer
and, while it would block, enters sleep mode (the halt instruction). -/
def regularWaitLoop : Nat → List SleepEvent
  | 0 => [SleepEvent.wait]
  | n + 1 => SleepEvent.wait :: SleepEvent.enterSleepMode :: regularWaitLoop n

/-- `impl Sleep for Regular`, `fn sleep(ticks)`: return immediately when
`ticks == 0`; otherwise select the wake timer's clock, start the timer,
and inside an `interrupt::free` critical section unmask the WKT
interrupt, halt until the timer fires, and mask the interrupt again
before the critical section ends. -/
def Regular.sleep (ticks : Nat) (fuel : Nat) : List SleepEvent :=
  if ticks = 0 then []
  else
    SleepEvent.selectClock :: SleepEvent.start ticks ::
      SleepEvent.criticalEnter :: SleepEvent.nvicUnmask ::
        (regularWaitLoop fuel ++ [SleepEvent.nvicMask, SleepEvent.criticalExit])

/-- Is this event a call to the wake timer's `start`? -/
def isStart : SleepEvent → Bool
  | .start _ => true
  | _ => false

/-- Checks that every `start` call in the trace is preceded by an
earlier `selectClock` call. -/
def clockSelectedBeforeStart (tr : List SleepEvent) : Bool :=
  (List.range tr.length).all fun j =>
    !(isStart (tr.getD j SleepEvent.nop)) ||
      (List.range j).any fun i => tr.getD i SleepEvent.nop = SleepEvent.selectClock

/-- State of the NVIC-mask scan: whether execution is inside the
`interrupt::free` critical section, whether the WKT interrupt is masked
at the NVIC, and whether the invariant "masked whenever outside the
critical section" has held at every step so far. -/
structure MaskScan where
  inCritical : Bool
  masked : Bool
  ok : Bool
deriving DecidableEq, Repr

/-- One step of the NVIC-mask scan. -/
def maskStep (st : MaskScan) (e : SleepEvent) : MaskScan :=
  let st := match e with
    | SleepEvent.nvicUnmask => { st with masked := false }
    | SleepEvent.nvicMask => { st with masked := true }
    | SleepEvent.criticalEnter => { st with inCritical := true }
    | SleepEvent.criticalExit => { st with inCritical := false }
    | _ => st
  { st with ok := st.ok && (st.inCritical || st.masked) }

/-- Scan a trace from the state "outside any critical section, WKT
interrupt masked" (the claim's precondition). -/
def maskScan (tr : List SleepEvent) : MaskScan :=
  tr.foldl maskStep { inCritical := false, masked := true, ok := true }

end Sleep


open Gpio Sleep

/-- C1: for a dynamic pin whose runtime direction is already Output,
`GpioPin<T, direction::Dynamic>::switch_to_output(Level::Low)` still
performs the level write (CLR) and stops there, but the capability-erased
`DynamicGpioPin::switch_to_output` returns without performing any
register access at all — it skips the level write, contradicting the
claimed behaviour (and the function's own doc comment). -/
theorem switch_to_output_already_output_divergence :
    (GpioPinDynamic.switch_to_output ⟨0, 12⟩
        { current_direction := DynamicPinDirection.output } Level.low).2
      = [RegOp.clr ⟨0, 12⟩]
    ∧ (DynamicGpioPin.switch_to_output
        { pin := ⟨0, 12⟩, is_output := true } Level.low).2 = [] := by
  exact ⟨rfl, rfl⟩

/-- C9: calling `toggle` twice on an output pin performs exactly two
writes of the pin's mask to the NOT register, and the observed output
level (read back through `is_set_high`) returns to its original value. -/
theorem toggle_involution (p : PinId) (s : HwState) :
    GpioPinOutput.toggle p ++ GpioPinOutput.toggle p
      = [RegOp.notw p, RegOp.notw p]
    ∧ (GpioPinOutput.is_set_high p
        (applyOps s (GpioPinOutput.toggle p ++ GpioPinOutput.toggle p))).1
      = (GpioPinOutput.is_set_high p s).1 := by
  refine ⟨rfl, ?_⟩
  simp [GpioPinOutput.toggle, GpioPinOutput.is_set_high, Gpio.is_high,
    applyOps, applyOp]

/-- C8: calling `switch_to_output` twice in succession with the same
level performs at most one DIRSET write across the two calls, for both
the token-backed `GpioPin<T, direction::Dynamic>` and the
capability-erased `DynamicGpioPin`. -/
theorem switch_to_output_twice_one_direction_write
    (p : PinId) (h : DynamicHandle) (dp : DynGpioPin) (L : Level) :
    countDirset ((GpioPinDynamic.switch_to_output p h L).2
      ++ (GpioPinDynamic.switch_to_output p
            (GpioPinDynamic.switch_to_output p h L).1 L).2) ≤ 1
    ∧ countDirset ((DynamicGpioPin.switch_to_output dp L).2
      ++ (DynamicGpioPin.switch_to_output
            (DynamicGpioPin.switch_to_output dp L).1 L).2) ≤ 1 := by
  obtain ⟨d⟩ := h
  obtain ⟨q, b⟩ := dp
  cases d <;> cases b <;> cases L <;>
    simp [GpioPinDynamic.switch_to_output, DynamicGpioPin.switch_to_output,
      GpioPinDynamic.set_high, GpioPinDynamic.set_low, Gpio.set_high,
      Gpio.set_low, set_direction_output, countDirset]

/-- C7: with `ticks == 0`, both `Busy::sleep` and `Regular::sleep`
return immediately: they perform no operation at all, in particular they
never call the wake timer's `start`, and no error is raised (the
functions return unit). -/
theorem zero_tick_sleep_is_noop (fuel : Nat) :
    Busy.sleep 0 fuel = [] ∧ Regular.sleep 0 fuel = []
    ∧ (∀ t : Nat, SleepEvent.start t ∉ Busy.sleep 0 fuel)
    ∧ (∀ t : Nat, SleepEvent.start t ∉ Regular.sleep 0 fuel) := by
  refine ⟨rfl, rfl, ?_, ?_⟩ <;> intro t <;> simp [Busy.sleep, Regular.sleep]

/-- C7 witness: concrete evaluation at `fuel = 7`. -/
theorem zero_tick_sleep_is_noop_witness :
    Busy.sleep 0 7 = [] ∧ Regular.sleep 0 7 = [] :=
  ⟨(zero_tick_sleep_is_noop 7).1, (zero_tick_sleep_is_noop 7).2.1⟩

/-- C2 counterexample: in `Busy::sleep(1)` the timer is armed although
no `select_clock` call ever precedes it — the claim that both strategies
select the clock source before `start` fails on the Busy strategy. -/
theorem busy_sleep_no_clock_select_counterexample :
    clockSelectedBeforeStart (Busy.sleep 1 0) = false := by decide

/-- The busy-wait loop consists only of timer polls and `nop`
instructions; in particular it never selects the timer clock. -/
theorem selectClock_not_mem_busyWaitLoop (n : Nat) :
    SleepEvent.selectClock ∉ busyWaitLoop n := by
  induction n with
  | zero => simp [busyWaitLoop]
  | succ k ih => simp [busyWaitLoop, ih]

/-- Any trace that opens with a `selectClock` call has every `start`
call preceded by a clock selection. -/
theorem clockSelectedBeforeStart_cons (rest : List SleepEvent) :
    clockSelectedBeforeStart (SleepEvent.selectClock :: rest) = true := by
  unfold clockSelectedBeforeStart
  rw [List.all_eq_true]
  intro j hj
  rw [List.mem_range] at hj
  cases j with
  | zero => simp [isStart]
  | succ k =>
      rw [Bool.or_eq_true]
      right
      rw [List.any_eq_true]
      exact ⟨0, List.mem_range.mpr (Nat.succ_pos k), by simp⟩

/-- C2 (amended): for `ticks > 0`, `Regular::sleep` selects the wake
timer's clock source before arming the timer, while `Busy::sleep` never
calls `select_clock` at all — it arms the timer directly. -/
theorem clock_selected_before_start_regular_only (ticks fuel : Nat)
    (hp : 0 < ticks) :
    clockSelectedBeforeStart (Regular.sleep ticks fuel) = true
    ∧ SleepEvent.selectClock ∉ Busy.sleep ticks fuel := by
  have h0 : ticks ≠ 0 := by omega
  constructor
  · rw [Regular.sleep, if_neg h0]
    exact clockSelectedBeforeStart_cons _
  · rw [Busy.sleep, if_neg h0]
    intro hmem
    rcases List.mem_cons.mp hmem with hh | hh
    · exact SleepEvent.noConfusion hh
    · exact selectClock_not_mem_busyWaitLoop fuel hh

/-- C2 (amended) witness: concrete evaluation at one tick. -/
theorem clock_selected_before_start_regular_only_witness :
    clockSelectedBeforeStart (Regular.sleep 1 0) = true
    ∧ SleepEvent.selectClock ∉ Busy.sleep 1 0 :=
  clock_selected_before_start_regular_only 1 0 (by decide)

/-- While execution stays inside the critical section, the wait loop of
`Regular::sleep` leaves the NVIC-mask scan state unchanged. -/
theorem foldl_maskStep_regularWaitLoop (n : Nat) (st : MaskScan)
    (hc : st.inCritical = true) :
    (regularWaitLoop n).foldl maskStep st = st := by
  obtain ⟨ic, m, o⟩ := st
  replace hc : ic = true := hc
  subst hc
  induction n with
  | zero => simp [regularWaitLoop, maskStep]
  | succ k ih => simp [regularWaitLoop, maskStep, ih]

/-- C6: starting from "WKT interrupt masked, outside any critical
section", a `Regular::sleep` call ends with the interrupt masked again
and outside the critical section, the interrupt is unmasked only while
inside the `interrupt::free` critical section (the scan invariant `ok`
holds throughout), and a zero-tick call performs no operation at all. -/
theorem regular_sleep_mask_restored (ticks fuel : Nat) :
    (maskScan (Regular.sleep ticks fuel)).masked = true
    ∧ (maskScan (Regular.sleep ticks fuel)).ok = true
    ∧ (maskScan (Regular.sleep ticks fuel)).inCritical = false
    ∧ (ticks = 0 → Regular.sleep ticks fuel = []) := by
  by_cases h0 : ticks = 0
  · subst h0
    exact ⟨rfl, rfl, rfl, fun _ => rfl⟩
  · have h4 : maskStep (maskStep (maskStep (maskStep
        { inCritical := false, masked := true, ok := true }
        SleepEvent.selectClock) (SleepEvent.start ticks))
        SleepEvent.criticalEnter) SleepEvent.nvicUnmask
        = { inCritical := true, masked := false, ok := true } := rfl
    have hms : maskScan (Regular.sleep ticks fuel)
        = { inCritical := false, masked := true, ok := true } := by
      rw [maskScan, Regular.sleep, if_neg h0]
      rw [List.foldl_cons, List.foldl_cons, List.foldl_cons, List.foldl_cons, h4,
        List.foldl_append, foldl_maskStep_regularWaitLoop fuel _ rfl]
      rfl
    exact ⟨by rw [hms], by rw [hms], by rw [hms], fun hh => absurd hh h0⟩

/-- C6 witness: the zero-tick branch at concrete input. -/
theorem regular_sleep_mask_restored_witness : Regular.sleep 0 0 = [] :=
  (regular_sleep_mask_restored 0 0).2.2.2 rfl

/-- In the two-element trace "level write, then direction-set write",
every DIRSET access is preceded by the matching level write. -/
theorem levelBeforeDirset_pair (p : PinId) (L : Level) :
    levelBeforeDirset p L [levelWrite p L, RegOp.dirset p] := by
  intro j hj
  match j with
  | 0 =>
      exfalso
      cases L <;> simp [levelWrite] at hj
  | 1 => exact ⟨0, Nat.zero_lt_one, rfl⟩
  | (n + 2) => simp at hj

/-- After the trace "level write, then direction-set write", the level
register holds the requested level. -/
theorem applyOps_levelWrite_dirset_level (p : PinId) (L : Level) (s : HwState) :
    (applyOps s [levelWrite p L, RegOp.dirset p]).level p = L.toBool := by
  cases L <;> simp [applyOps, applyOp, levelWrite, Level.toBool]

/-- C3: in every transition that configures a pin as an output —
`direction::Output::switch` (used by `into_output` and
`into_output_pin`), `direction::Dynamic::switch` with requested
direction Output (used by `into_dynamic`), and `switch_to_output` while
the dynamic direction is Input, on both the token-backed and the
capability-erased handle — the requested level write strictly precedes
the DIRSET write, and reading the level register immediately after the
transition observes exactly the requested level. -/
theorem level_write_precedes_direction_write
    (p : PinId) (L : Level) (h : DynamicHandle) (dp : DynGpioPin) (s : HwState)
    (hIn : h.current_direction = DynamicPinDirection.input)
    (hdIn : dp.is_output = false) :
    (levelBeforeDirset p L (Direction.Output.switch p L)
      ∧ (applyOps s (Direction.Output.switch p L)).level p = L.toBool)
    ∧ (levelBeforeDirset p L
          (Direction.Dynamic.switch p (L, DynamicPinDirection.output)).2
      ∧ (applyOps s
            (Direction.Dynamic.switch p (L, DynamicPinDirection.output)).2).level p
          = L.toBool)
    ∧ (levelBeforeDirset p L (GpioPinDynamic.switch_to_output p h L).2
      ∧ (applyOps s (GpioPinDynamic.switch_to_output p h L).2).level p = L.toBool)
    ∧ (levelBeforeDirset dp.pin L (DynamicGpioPin.switch_to_output dp L).2
      ∧ (applyOps s (DynamicGpioPin.switch_to_output dp L).2).level dp.pin
          = L.toBool) := by
  obtain ⟨d⟩ := h
  obtain ⟨q, b⟩ := dp
  replace hIn : d = DynamicPinDirection.input := hIn
  replace hdIn : b = false := hdIn
  subst hIn
  subst hdIn
  have e1 : Direction.Output.switch p L = [levelWrite p L, RegOp.dirset p] := by
    cases L <;> rfl
  have e2 : (Direction.Dynamic.switch p (L, DynamicPinDirection.output)).2
      = [levelWrite p L, RegOp.dirset p] := by
    cases L <;> rfl
  have e3 : (GpioPinDynamic.switch_to_output p
      { current_direction := DynamicPinDirection.input } L).2
      = [levelWrite p L, RegOp.dirset p] := by
    cases L <;> rfl
  have e4 : (DynamicGpioPin.switch_to_output
      { pin := q, is_output := false } L).2
      = [levelWrite q L, RegOp.dirset q] := by
    cases L <;> rfl
  rw [e1, e2, e3, e4]
  exact ⟨⟨levelBeforeDirset_pair p L, applyOps_levelWrite_dirset_level p L s⟩,
    ⟨levelBeforeDirset_pair p L, applyOps_levelWrite_dirset_level p L s⟩,
    ⟨levelBeforeDirset_pair p L, applyOps_levelWrite_dirset_level p L s⟩,
    ⟨levelBeforeDirset_pair q L, applyOps_levelWrite_dirset_level q L s⟩⟩

/-- C3 witness: concrete evaluation of the Input-to-Output transition. -/
theorem level_write_precedes_direction_write_witness :
    levelBeforeDirset ⟨0, 3⟩ Level.high (Direction.Output.switch ⟨0, 3⟩ Level.high)
    ∧ (applyOps hw0 (Direction.Output.switch ⟨0, 3⟩ Level.high)).level ⟨0, 3⟩
      = Level.high.toBool :=
  (level_write_precedes_direction_write ⟨0, 3⟩ Level.high
    { current_direction := DynamicPinDirection.input }
    { pin := ⟨0, 3⟩, is_output := false } hw0 rfl rfl).1

/-- C4: the generic trait accessors on `GpioPin<T, direction::Dynamic>`
return `Err(WrongDirection)` exactly when the runtime direction
disagrees with the operation's required direction (`set_high`,
`set_low`, `is_set_high`, `is_set_low` require Output; `is_high`,
`is_low` require Input), and otherwise return Ok of the corresponding
inherent accessor's result; `WrongDirection` is the only value of the
GPIO error type. -/
theorem dynamic_trait_accessors_wrong_direction_iff
    (p : PinId) (h : DynamicHandle) (s : HwState) :
    (OutputPinImpl.set_high p h).1
      = (if h.current_direction = DynamicPinDirection.input
          then Except.error DynamicPinErr.WrongDirection else Except.ok ())
    ∧ (OutputPinImpl.set_low p h).1
      = (if h.current_direction = DynamicPinDirection.input
          then Except.error DynamicPinErr.WrongDirection else Except.ok ())
    ∧ (StatefulOutputPinImpl.is_set_high p h s).1
      = (if h.current_direction = DynamicPinDirection.input
          then Except.error DynamicPinErr.WrongDirection
          else Except.ok (GpioPinDynamic.is_high p s).1)
    ∧ (StatefulOutputPinImpl.is_set_low p h s).1
      = (if h.current_direction = DynamicPinDirection.input
          then Except.error DynamicPinErr.WrongDirection
          else Except.ok (GpioPinDynamic.is_low p s).1)
    ∧ (InputPinImpl.is_high p h s).1
      = (if h.current_direction = DynamicPinDirection.output
          then Except.error DynamicPinErr.WrongDirection
          else Except.ok (GpioPinDynamic.is_high p s).1)
    ∧ (InputPinImpl.is_low p h s).1
      = (if h.current_direction = DynamicPinDirection.output
          then Except.error DynamicPinErr.WrongDirection
          else Except.ok (GpioPinDynamic.is_low p s).1)
    ∧ (∀ e : DynamicPinErr, e = DynamicPinErr.WrongDirection) := by
  obtain ⟨d⟩ := h
  cases d <;>
    exact ⟨rfl, rfl, rfl, rfl, rfl, rfl, fun e => by cases e; rfl⟩

/-- C10: whenever a generic trait accessor on a dynamic pin returns
`Err(WrongDirection)`, its trace of register accesses is empty (no
write and no read), the runtime direction tag is unchanged, and the
hardware state is left exactly as it was. -/
theorem dynamic_trait_error_leaves_state_unchanged
    (p : PinId) (h : DynamicHandle) (s : HwState) :
    ((OutputPinImpl.set_high p h).1 = Except.error DynamicPinErr.WrongDirection →
      (OutputPinImpl.set_high p h).2.2 = []
        ∧ (OutputPinImpl.set_high p h).2.1 = h
        ∧ applyOps s (OutputPinImpl.set_high p h).2.2 = s)
    ∧ ((OutputPinImpl.set_low p h).1 = Except.error DynamicPinErr.WrongDirection →
      (OutputPinImpl.set_low p h).2.2 = []
        ∧ (OutputPinImpl.set_low p h).2.1 = h
        ∧ applyOps s (OutputPinImpl.set_low p h).2.2 = s)
    ∧ ((StatefulOutputPinImpl.is_set_high p h s).1
          = Except.error DynamicPinErr.WrongDirection →
      (StatefulOutputPinImpl.is_set_high p h s).2.2 = []
        ∧ (StatefulOutputPinImpl.is_set_high p h s).2.1 = h
        ∧ applyOps s (StatefulOutputPinImpl.is_set_high p h s).2.2 = s)
    ∧ ((StatefulOutputPinImpl.is_set_low p h s).1
          = Except.error DynamicPinErr.WrongDirection →
      (StatefulOutputPinImpl.is_set_low p h s).2.2 = []
        ∧ (StatefulOutputPinImpl.is_set_low p h s).2.1 = h
        ∧ applyOps s (StatefulOutputPinImpl.is_set_low p h s).2.2 = s)
    ∧ ((InputPinImpl.is_high p h s).1
          = Except.error DynamicPinErr.WrongDirection →
      (InputPinImpl.is_high p h s).2.2 = []
        ∧ (InputPinImpl.is_high p h s).2.1 = h
        ∧ applyOps s (InputPinImpl.is_high p h s).2.2 = s)
    ∧ ((InputPinImpl.is_low p h s).1
          = Except.error DynamicPinErr.WrongDirection →
      (InputPinImpl.is_low p h s).2.2 = []
        ∧ (InputPinImpl.is_low p h s).2.1 = h
        ∧ applyOps s (InputPinImpl.is_low p h s).2.2 = s) := by
  obtain ⟨d⟩ := h
  cases d with
  | input =>
      refine ⟨fun _ => ⟨rfl, rfl, rfl⟩, fun _ => ⟨rfl, rfl, rfl⟩,
        fun _ => ⟨rfl, rfl, rfl⟩, fun _ => ⟨rfl, rfl, rfl⟩,
        fun hE => ?_, fun hE => ?_⟩ <;>
        simp [InputPinImpl.is_high, InputPinImpl.is_low] at hE
  | output =>
      refine ⟨fun hE => ?_, fun hE => ?_, fun hE => ?_, fun hE => ?_,
        fun _ => ⟨rfl, rfl, rfl⟩, fun _ => ⟨rfl, rfl, rfl⟩⟩ <;>
        simp [OutputPinImpl.set_high, OutputPinImpl.set_low,
          StatefulOutputPinImpl.is_set_high, StatefulOutputPinImpl.is_set_low] at hE

/-- C10 witness: concrete evaluation of `set_high` on an Input-tagged
dynamic pin. -/
theorem dynamic_trait_error_leaves_state_unchanged_witness :
    (OutputPinImpl.set_high ⟨1, 4⟩
        { current_direction := DynamicPinDirection.input }).2.2 = []
    ∧ (OutputPinImpl.set_high ⟨1, 4⟩
        { current_direction := DynamicPinDirection.input }).2.1
      = { current_direction := DynamicPinDirection.input }
    ∧ applyOps hw0 (OutputPinImpl.set_high ⟨1, 4⟩
        { current_direction := DynamicPinDirection.input }).2.2 = hw0 :=
  (dynamic_trait_error_leaves_state_unchanged ⟨1, 4⟩
    { current_direction := DynamicPinDirection.input } hw0).1 rfl

/-- C5: the handle's direction (type tag for Input/Output handles,
runtime tag for Dynamic handles) always matches the pin's hardware
direction register bit: construction in any direction state establishes
the match, and every available operation (into_output, into_input,
into_dynamic, switch_to_input, switch_to_output, set_high, set_low,
toggle) updates tag and register together, so the match is preserved. -/
theorem direction_tag_matches_register
    (p : PinId) (s : HwState) (a : ConstructArg) (h h2 : Handle) (op : Op)
    (tr : List RegOp) (hInv : s.dir p = h.dirBit)
    (hstep : step p h op = some (h2, tr)) :
    (applyOps s (construct p a).2).dir p = (construct p a).1.dirBit
    ∧ (applyOps s tr).dir p = h2.dirBit := by
  constructor
  · cases a with
    | input =>
        simp [construct, Direction.Input.switch, set_direction_input,
          applyOps, applyOp, Handle.dirBit]
    | output l =>
        cases l <;>
          simp [construct, Direction.Output.switch, Gpio.set_high, Gpio.set_low,
            set_direction_output, applyOps, applyOp, Handle.dirBit]
    | dynamic l d =>
        cases l <;> cases d <;>
          simp [construct, Direction.Dynamic.switch, Gpio.set_high, Gpio.set_low,
            set_direction_input, set_direction_output, applyOps, applyOp,
            Handle.dirBit]
  · cases h with
    | input =>
        cases op with
        | into_output l =>
            simp only [step, Option.some.injEq, Prod.mk.injEq] at hstep
            obtain ⟨rfl, rfl⟩ := hstep
            cases l <;>
              simp [Direction.Output.switch, Gpio.set_high, Gpio.set_low,
                set_direction_output, applyOps, applyOp, Handle.dirBit]
        | into_dynamic l d =>
            simp only [step, Option.some.injEq, Prod.mk.injEq] at hstep
            obtain ⟨rfl, rfl⟩ := hstep
            cases l <;> cases d <;>
              simp [Direction.Dynamic.switch, Gpio.set_high, Gpio.set_low,
                set_direction_input, set_direction_output, applyOps, applyOp,
                Handle.dirBit]
        | into_input => simp [step] at hstep
        | switch_to_input => simp [step] at hstep
        | switch_to_output l => simp [step] at hstep
        | op_set_high => simp [step] at hstep
        | op_set_low => simp [step] at hstep
        | op_toggle => simp [step] at hstep
    | output =>
        cases op with
        | into_input =>
            simp only [step, Option.some.injEq, Prod.mk.injEq] at hstep
            obtain ⟨rfl, rfl⟩ := hstep
            simp [Direction.Input.switch, set_direction_input, applyOps, applyOp,
              Handle.dirBit]
        | into_dynamic l d =>
            simp only [step, Option.some.injEq, Prod.mk.injEq] at hstep
            obtain ⟨rfl, rfl⟩ := hstep
            cases l <;> cases d <;>
              simp [Direction.Dynamic.switch, Gpio.set_high, Gpio.set_low,
                set_direction_input, set_direction_output, applyOps, applyOp,
                Handle.dirBit]
        | op_set_high =>
            simp only [step, Option.some.injEq, Prod.mk.injEq] at hstep
            obtain ⟨rfl, rfl⟩ := hstep
            simpa [GpioPinOutput.set_high, Gpio.set_high, applyOps, applyOp]
              using hInv
        | op_set_low =>
            simp only [step, Option.some.injEq, Prod.mk.injEq] at hstep
            obtain ⟨rfl, rfl⟩ := hstep
            simpa [GpioPinOutput.set_low, Gpio.set_low, applyOps, applyOp]
              using hInv
        | op_toggle =>
            simp only [step, Option.some.injEq, Prod.mk.injEq] at hstep
            obtain ⟨rfl, rfl⟩ := hstep
            simpa [GpioPinOutput.toggle, applyOps, applyOp] using hInv
        | into_output l => simp [step] at hstep
        | switch_to_input => simp [step] at hstep
        | switch_to_output l => simp [step] at hstep
    | dynamic d =>
        cases op with
        | switch_to_input =>
            cases d <;>
              simp only [step, GpioPinDynamic.switch_to_input,
                Option.some.injEq, Prod.mk.injEq] at hstep <;>
              obtain ⟨rfl, rfl⟩ := hstep
            · simpa [applyOps, Handle.dirBit] using hInv
            · simp [set_direction_input, applyOps, applyOp, Handle.dirBit]
        | switch_to_output l =>
            cases d <;>
              simp only [step, GpioPinDynamic.switch_to_output,
                GpioPinDynamic.set_high, GpioPinDynamic.set_low,
                Option.some.injEq, Prod.mk.injEq] at hstep <;>
              obtain ⟨rfl, rfl⟩ := hstep
            · cases l <;>
                simp [Gpio.set_high, Gpio.set_low, set_direction_output,
                  applyOps, applyOp, Handle.dirBit]
            · cases l <;>
                simpa [Gpio.set_high, Gpio.set_low, applyOps, applyOp,
                  Handle.dirBit] using hInv
        | op_set_high =>
            simp only [step, Option.some.injEq, Prod.mk.injEq] at hstep
            obtain ⟨rfl, rfl⟩ := hstep
            simpa [GpioPinDynamic.set_high, Gpio.set_high, applyOps, applyOp]
              using hInv
        | op_set_low =>
            simp only [step, Option.some.injEq, Prod.mk.injEq] at hstep
            obtain ⟨rfl, rfl⟩ := hstep
            simpa [GpioPinDynamic.set_low, Gpio.set_low, applyOps, applyOp]
              using hInv
        | into_output l => simp [step] at hstep
        | into_input => simp [step] at hstep
        | into_dynamic l d2 => simp [step] at hstep
        | op_toggle => simp [step] at hstep

/-- C5 witness: concrete evaluation of a `switch_to_output` step from a
dynamic-Input handle with the hardware direction bit clear. -/
theorem direction_tag_matches_register_witness :
    (applyOps hw0 (construct ⟨0, 1⟩ ConstructArg.input).2).dir ⟨0, 1⟩
      = (construct ⟨0, 1⟩ ConstructArg.input).1.dirBit
    ∧ (applyOps hw0
        [levelWrite ⟨0, 1⟩ Level.high, RegOp.dirset ⟨0, 1⟩]).dir ⟨0, 1⟩
      = (Handle.dynamic DynamicPinDirection.output).dirBit :=
  direction_tag_matches_register ⟨0, 1⟩ hw0 ConstructArg.input
    (Handle.dynamic DynamicPinDirection.input)
    (Handle.dynamic DynamicPinDirection.output)
    (Op.switch_to_output Level.high)
    [levelWrite ⟨0, 1⟩ Level.high, RegOp.dirset ⟨0, 1⟩] rfl rfl
